import Mathlib

/-!
Shallow embedding of the engenca repository core:
`src/genome.py` (Genome buffer container), `src/gene_decoder.py`
(discrete and interacting-genes decoders), `src/organism.py`
(Organism aggregator with fixed trait specifications).

Python ints are modelled as `Int` (arbitrary precision, matching
Python semantics); byte buffers as `List Nat` (Python `bytes`);
exceptions as `Except GenomeError`; Python `None` results of the
decoders (the UNDECODED marker) as `Option.none`.
`IndexError` is modelled by `GenomeError.OutOfRange` and
`ValueError` by `GenomeError.InvalidArgument`, the spec's names
for the two error kinds.
-/

namespace Engenca

/-- The two error kinds of the system: `OutOfRange` models Python
`IndexError`, `InvalidArgument` models Python `ValueError`. -/
inductive GenomeError where
  | OutOfRange
  | InvalidArgument
  deriving DecidableEq, Repr

/-- `Genome` from `src/genome.py`: owns a byte buffer `data`. -/
structure Genome where
  data : List Nat
  deriving DecidableEq, Repr

/-- `Genome.__len__` from `src/genome.py`. -/
def Genome.length (g : Genome) : Nat :=
  g.data.length

/-- `Genome.__init__` from `src/genome.py`, the branch without
explicit data: raises `ValueError` on negative size, else fills a
fresh buffer from `os.urandom(size)`, modelled by the supplied
byte source `urandom` (so `urandom n` stands for `os.urandom(n)`,
a list of `n` bytes). -/
def Genome.construct_random (urandom : Nat → List Nat) (size : Int) :
    Except GenomeError Genome :=
  if size < 0 then
    Except.error GenomeError.InvalidArgument
  else
    Except.ok ⟨urandom size.toNat⟩

/-- `Genome.get_gene` from `src/genome.py` lines 13-16: raises
`IndexError` unless `0 ≤ start_index < len(data)`, `0 < length`
and `start_index + length ≤ len(data)`; otherwise returns the
Python slice `data[start_index : start_index + length]`, which for
an in-bounds request is `(data.drop start_index).take length`. -/
def Genome.get_gene (g : Genome) (start_index length : Int) :
    Except GenomeError (List Nat) :=
  if ¬ (0 ≤ start_index ∧ start_index < (g.data.length : Int)) ∨
      ¬ (0 < length) ∨
      ¬ (start_index + length ≤ (g.data.length : Int)) then
    Except.error GenomeError.OutOfRange
  else
    Except.ok ((g.data.drop start_index.toNat).take length.toNat)

/-- `Genome.mutate_byte` from `src/genome.py` lines 18-29: first
checks `0 ≤ index < len(data)` (raising `IndexError`), then, when
an explicit `new_byte_value` is given, checks it lies in [0,255]
(raising `ValueError`) and writes it at `index`; when the value is
omitted (`none`) a random byte is written, modelled by the
supplied `rand_byte` standing for `random.randint(0, 255)`.
The buffer is only replaced after all checks pass, so an error
leaves the genome unchanged, which the `Except` state-passing
style captures by returning no new genome. -/
def Genome.mutate_byte (g : Genome) (index : Int)
    (new_byte_value : Option Int) (rand_byte : Nat) :
    Except GenomeError Genome :=
  if ¬ (0 ≤ index ∧ index < (g.data.length : Int)) then
    Except.error GenomeError.OutOfRange
  else
    match new_byte_value with
    | some v =>
        if ¬ (0 ≤ v ∧ v ≤ 255) then
          Except.error GenomeError.InvalidArgument
        else
          Except.ok ⟨g.data.set index.toNat v.toNat⟩
    | none => Except.ok ⟨g.data.set index.toNat rand_byte⟩

/-- `decode_simple_attribute` from `src/gene_decoder.py` lines
3-32: `None` on empty options, `None` when `get_gene` raises
`IndexError`, `None` on an empty segment (unreachable after a
successful `get_gene`), otherwise the option at index
`sum(gene_bytes) % len(attribute_options)`. -/
def decode_simple_attribute (genome : Genome) (gene_start gene_length : Int)
    (attribute_options : List String) : Option String :=
  if attribute_options.isEmpty then
    none
  else
    match genome.get_gene gene_start gene_length with
    | Except.error _ => none
    | Except.ok gene_bytes =>
        if gene_bytes.isEmpty then
          none
        else
          let sum_of_bytes := gene_bytes.sum
          let selected_index := sum_of_bytes % attribute_options.length
          attribute_options[selected_index]?

/-- `decode_interacting_genes` from `src/gene_decoder.py` lines
35-81: `None` on non-positive `max_value`, `None` when either
`get_gene` raises `IndexError` or either segment is empty
(unreachable), otherwise `(sum1 * sum2) % max_value`, with exact
unbounded integer arithmetic as in Python. -/
def decode_interacting_genes (genome : Genome)
    (gene1_start gene1_length gene2_start gene2_length : Int)
    (max_value : Int) : Option Int :=
  if max_value ≤ 0 then
    none
  else
    match genome.get_gene gene1_start gene1_length,
          genome.get_gene gene2_start gene2_length with
    | Except.ok gene1_bytes, Except.ok gene2_bytes =>
        if gene1_bytes.isEmpty ∨ gene2_bytes.isEmpty then
          none
        else
          let sum_gene1 := gene1_bytes.sum
          let sum_gene2 := gene2_bytes.sum
          let combined_value : Int := (sum_gene1 : Int) * (sum_gene2 : Int)
          some (combined_value % max_value)
    | _, _ => none

/-- `Organism.COLOR_GENE_START` from `src/organism.py`. -/
def COLOR_GENE_START : Int := 0

/-- `Organism.COLOR_GENE_LENGTH` from `src/organism.py`. -/
def COLOR_GENE_LENGTH : Int := 4

/-- `Organism.COLOR_OPTIONS` from `src/organism.py`. -/
def COLOR_OPTIONS : List String :=
  ["red", "green", "blue", "yellow", "purple",
   "orange", "pink", "brown", "black", "white"]

/-- `Organism.SIZE_GENE1_START` from `src/organism.py`. -/
def SIZE_GENE1_START : Int := COLOR_GENE_START + COLOR_GENE_LENGTH

/-- `Organism.SIZE_GENE1_LENGTH` from `src/organism.py`. -/
def SIZE_GENE1_LENGTH : Int := 2

/-- `Organism.SIZE_GENE2_START` from `src/organism.py`. -/
def SIZE_GENE2_START : Int := SIZE_GENE1_START + SIZE_GENE1_LENGTH

/-- `Organism.SIZE_GENE2_LENGTH` from `src/organism.py`. -/
def SIZE_GENE2_LENGTH : Int := 2

/-- `Organism.SIZE_MAX_VALUE` from `src/organism.py`. -/
def SIZE_MAX_VALUE : Int := 100

/-- `Organism.MIN_GENOME_SIZE` from `src/organism.py`. -/
def MIN_GENOME_SIZE : Int := SIZE_GENE2_START + SIZE_GENE2_LENGTH

/-- The trait map populated by `Organism.decode_attributes`: the
fixed keys are the strings color and size, so a record with those
two fields models the dictionary exactly. -/
structure Attributes where
  color : Option String
  size : Option Int
  deriving DecidableEq, Repr

/-- `Organism.decode_attributes` from `src/organism.py` lines
40-62, as the pure trait map it assigns. -/
def decode_attributes (genome : Genome) : Attributes :=
  { color := decode_simple_attribute genome
      COLOR_GENE_START COLOR_GENE_LENGTH COLOR_OPTIONS
    size := decode_interacting_genes genome
      SIZE_GENE1_START SIZE_GENE1_LENGTH
      SIZE_GENE2_START SIZE_GENE2_LENGTH SIZE_MAX_VALUE }

/-- `Organism` from `src/organism.py`: one owned genome and the
decoded trait map. -/
structure Organism where
  genome : Genome
  attributes : Attributes
  deriving DecidableEq, Repr

/-- `Organism.__init__` from `src/organism.py` lines 20-38, branch
with a supplied genome instance: raises `ValueError` when the
instance is shorter than `MIN_GENOME_SIZE`, else owns it verbatim
and decodes the attributes. -/
def Organism.init_with_instance (genome_instance : Genome) :
    Except GenomeError Organism :=
  if (genome_instance.data.length : Int) < MIN_GENOME_SIZE then
    Except.error GenomeError.InvalidArgument
  else
    Except.ok ⟨genome_instance, decode_attributes genome_instance⟩

/-- `Organism.__init__` from `src/organism.py` lines 20-38, branch
without a supplied genome instance: a requested size below
`MIN_GENOME_SIZE` is silently raised to `MIN_GENOME_SIZE` (warning
only), then a fresh random genome of the adjusted size is created
via `Genome.__init__` and the attributes are decoded. -/
def Organism.init_fresh (urandom : Nat → List Nat) (genome_size : Int) :
    Except GenomeError Organism :=
  let adjusted_size :=
    if genome_size < MIN_GENOME_SIZE then MIN_GENOME_SIZE else genome_size
  match Genome.construct_random urandom adjusted_size with
  | Except.error e => Except.error e
  | Except.ok g => Except.ok ⟨g, decode_attributes g⟩

/-! Helper lemmas shared by the claim theorems. -/

/-- An in-bounds request makes `get_gene` return the slice. -/
lemma get_gene_ok (g : Genome) (s l : Int)
    (h0 : 0 ≤ s) (h1 : s < (g.data.length : Int)) (h2 : 0 < l)
    (h3 : s + l ≤ (g.data.length : Int)) :
    g.get_gene s l = Except.ok ((g.data.drop s.toNat).take l.toNat) := by
  unfold Genome.get_gene
  rw [if_neg]
  push_neg
  exact ⟨⟨h0, h1⟩, h2, h3⟩

/-- An out-of-bounds request makes `get_gene` raise `OutOfRange`. -/
lemma get_gene_err (g : Genome) (s l : Int)
    (h : s < 0 ∨ (g.data.length : Int) ≤ s ∨ l ≤ 0 ∨
      (g.data.length : Int) < s + l) :
    g.get_gene s l = Except.error GenomeError.OutOfRange := by
  unfold Genome.get_gene
  rw [if_pos]
  omega

/-- Length of the in-bounds slice returned by `get_gene`. -/
lemma slice_length (data : List Nat) (s l : Int)
    (h0 : 0 ≤ s) (h2 : 0 < l) (h3 : s + l ≤ (data.length : Int)) :
    ((data.drop s.toNat).take l.toNat).length = l.toNat := by
  rw [List.length_take, List.length_drop]
  omega

/-- The in-bounds slice is never the empty list. -/
lemma slice_ne_nil (data : List Nat) (s l : Int)
    (h0 : 0 ≤ s) (h2 : 0 < l) (h3 : s + l ≤ (data.length : Int)) :
    (data.drop s.toNat).take l.toNat ≠ [] := by
  have hlen := slice_length data s l h0 h2 h3
  intro hcon
  rw [hcon] at hlen
  simp at hlen
  omega

/-- With positive `max_value` and two in-bounds segments,
`decode_interacting_genes` returns the reduced product of sums. -/
lemma decode_interacting_ok (g : Genome) (s1 l1 s2 l2 mv : Int)
    (hmv : 0 < mv)
    (ha0 : 0 ≤ s1) (ha1 : s1 < (g.data.length : Int)) (ha2 : 0 < l1)
    (ha3 : s1 + l1 ≤ (g.data.length : Int))
    (hb0 : 0 ≤ s2) (hb1 : s2 < (g.data.length : Int)) (hb2 : 0 < l2)
    (hb3 : s2 + l2 ≤ (g.data.length : Int)) :
    decode_interacting_genes g s1 l1 s2 l2 mv =
      some (((((g.data.drop s1.toNat).take l1.toNat).sum : Int) *
        (((g.data.drop s2.toNat).take l2.toNat).sum : Int)) % mv) := by
  have hne1 := slice_ne_nil g.data s1 l1 ha0 ha2 ha3
  have hne2 := slice_ne_nil g.data s2 l2 hb0 hb2 hb3
  unfold decode_interacting_genes
  rw [if_neg (not_le.mpr hmv), get_gene_ok g s1 l1 ha0 ha1 ha2 ha3,
    get_gene_ok g s2 l2 hb0 hb1 hb2 hb3]
  simp [hne1, hne2]

/-! The claims. -/

/-- Claim C1: for every Genome with buffer `data` and all integers
`start`, `length`, `get_gene start length` returns exactly the
`length`-byte slice `data[start : start+length]` when `0 ≤ start <
|data|`, `length > 0` and `start+length ≤ |data|`, and fails with
`OutOfRange` in exactly the complementary cases (`start < 0`,
`start ≥ |data|`, `length ≤ 0`, or `start+length > |data|`); in
particular a zero-length request always fails. -/
theorem c1_get_gene_spec (g : Genome) (start length : Int) :
    ((0 ≤ start ∧ start < (g.data.length : Int) ∧ 0 < length ∧
        start + length ≤ (g.data.length : Int)) →
      ∃ seg, g.get_gene start length = Except.ok seg ∧
        seg = (g.data.drop start.toNat).take length.toNat ∧
        (seg.length : Int) = length) ∧
    ((start < 0 ∨ (g.data.length : Int) ≤ start ∨ length ≤ 0 ∨
        (g.data.length : Int) < start + length) →
      g.get_gene start length = Except.error GenomeError.OutOfRange) := by
  constructor
  · rintro ⟨h0, h1, h2, h3⟩
    refine ⟨_, get_gene_ok g start length h0 h1 h2 h3, rfl, ?_⟩
    rw [slice_length g.data start length h0 h2 h3]
    omega
  · exact get_gene_err g start length

/-- Witness for C1: on the 10-byte buffer `[0,…,9]`, the in-bounds
request `(2, 4)` returns the 4-byte slice `[2,3,4,5]`, and the
zero-length request `(5, 0)` fails with `OutOfRange`. -/
theorem c1_get_gene_spec_witness :
    (∃ seg, (Genome.mk [0,1,2,3,4,5,6,7,8,9]).get_gene 2 4 = Except.ok seg ∧
      seg = [2,3,4,5] ∧ (seg.length : Int) = 4) ∧
    (Genome.mk [0,1,2,3,4,5,6,7,8,9]).get_gene 5 0 =
      Except.error GenomeError.OutOfRange := by
  constructor
  · obtain ⟨seg, hok, hseg, hlen⟩ :=
      (c1_get_gene_spec ⟨[0,1,2,3,4,5,6,7,8,9]⟩ 2 4).1 (by norm_num)
    exact ⟨seg, hok, by simpa using hseg, hlen⟩
  · exact (c1_get_gene_spec ⟨[0,1,2,3,4,5,6,7,8,9]⟩ 5 0).2 (by norm_num)

/-- Claim C2: for every genome, every in-bounds segment `(start,
length)` and every non-empty options list, `decode_simple_attribute`
returns `options[(Σ bytes of the segment) mod |options|]`; in
particular on a 4-byte segment `[0,1,2,3]` with a 5-label option
list the sum is 6, `6 mod 5 = 1`, and the second label is
returned. -/
theorem c2_decode_discrete (g : Genome) (start length : Int)
    (options : List String) (hopts : options ≠ [])
    (h0 : 0 ≤ start) (h1 : start < (g.data.length : Int)) (h2 : 0 < length)
    (h3 : start + length ≤ (g.data.length : Int)) :
    ∃ label, decode_simple_attribute g start length options = some label ∧
      options[((g.data.drop start.toNat).take length.toNat).sum %
        options.length]? = some label := by
  have hlen : 0 < options.length := List.length_pos.mpr hopts
  have hidx : ((g.data.drop start.toNat).take length.toNat).sum %
      options.length < options.length := Nat.mod_lt _ hlen
  have hne : (g.data.drop start.toNat).take length.toNat ≠ [] := by
    have := slice_length g.data start length h0 h2 h3
    intro hcon
    rw [hcon] at this
    simp at this
    omega
  refine ⟨options.get ⟨_, hidx⟩, ?_, ?_⟩
  · unfold decode_simple_attribute
    rw [get_gene_ok g start length h0 h1 h2 h3]
    simp only [List.isEmpty_eq_true, hopts, if_false, hne]
    rw [List.getElem?_eq_getElem hidx, List.get_eq_getElem]
  · rw [List.getElem?_eq_getElem hidx, List.get_eq_getElem]

/-- Witness for C2: on the genome `[0,1,2,3]` with a 5-label option
list, the segment sum is 6, `6 mod 5 = 1`, and the second label is
returned. -/
theorem c2_decode_discrete_witness :
    ∃ label,
      decode_simple_attribute ⟨[0,1,2,3]⟩ 0 4 ["a","b","c","d","e"] =
        some label ∧
      ["a","b","c","d","e"][(([0,1,2,3] : List Nat).drop 0 |>.take 4).sum % 5]? =
        some label ∧ label = "b" := by
  obtain ⟨label, hdec, hvia⟩ :=
    c2_decode_discrete ⟨[0,1,2,3]⟩ 0 4 ["a","b","c","d","e"]
      (by decide) (by norm_num) (by norm_num) (by norm_num) (by norm_num)
  refine ⟨label, hdec, by simpa using hvia, ?_⟩
  have : (["a","b","c","d","e"] : List String)[(([0,1,2,3] : List Nat).drop
      (Int.toNat 0) |>.take (Int.toNat 4)).sum % 5]? = some "b" := by decide
  simp only [List.length_cons, List.length_nil] at hvia
  rw [this] at hvia
  exact (Option.some_inj.mp hvia).symm

/-- Claim C3: for every input, `decode_simple_attribute` and
`decode_interacting_genes` never raise an exception to their
caller (they are total functions into `Option`): when options is
empty, when `max_value ≤ 0`, or when any segment retrieval fails
with `OutOfRange` for any reason, they return the UNDECODED marker
`none` instead, so the buffer-layer failure never propagates past
the decoder layer. -/
theorem c3_decoders_fail_soft (g : Genome) (s l s1 l1 s2 l2 mv : Int)
    (options : List String) :
    (options = [] → decode_simple_attribute g s l options = none) ∧
    (∀ e, g.get_gene s l = Except.error e →
      decode_simple_attribute g s l options = none) ∧
    (mv ≤ 0 → decode_interacting_genes g s1 l1 s2 l2 mv = none) ∧
    (∀ e, g.get_gene s1 l1 = Except.error e ∨
        g.get_gene s2 l2 = Except.error e →
      decode_interacting_genes g s1 l1 s2 l2 mv = none) := by
  refine ⟨?_, ?_, ?_, ?_⟩
  · intro h
    unfold decode_simple_attribute
    simp [h]
  · intro e he
    unfold decode_simple_attribute
    rw [he]
    split <;> rfl
  · intro h
    unfold decode_interacting_genes
    rw [if_pos h]
  · rintro e (he | he) <;> unfold decode_interacting_genes <;> rw [he]
    · rcases g.get_gene s2 l2 with e2 | b2 <;> split <;> rfl
    · rcases g.get_gene s1 l1 with e1 | b1 <;> split <;> rfl

/-- Witness for C3: concrete soft failures — empty options, an
out-of-range simple segment, `max_value = 0`, and an out-of-range
first segment of the interacting decoder, all on the 2-byte genome
`[7,9]`, each return `none`. -/
theorem c3_decoders_fail_soft_witness :
    (decode_simple_attribute ⟨[7,9]⟩ 0 2 [] = none) ∧
    (decode_simple_attribute ⟨[7,9]⟩ 0 3 ["a"] = none) ∧
    (decode_interacting_genes ⟨[7,9]⟩ 0 1 1 1 0 = none) ∧
    (decode_interacting_genes ⟨[7,9]⟩ 5 1 1 1 10 = none) := by
  obtain ⟨h1, h2, h3, h4⟩ :=
    c3_decoders_fail_soft ⟨[7,9]⟩ 0 3 5 1 1 1 0 []
  refine ⟨h1 rfl, ?_, h3 le_rfl, ?_⟩
  · exact (c3_decoders_fail_soft ⟨[7,9]⟩ 0 3 5 1 1 1 0 ["a"]).2.1
      GenomeError.OutOfRange (by rfl)
  · exact (c3_decoders_fail_soft ⟨[7,9]⟩ 0 3 5 1 1 1 10 []).2.2.2
      GenomeError.OutOfRange (Or.inl (by rfl))

/-- Claim C4: for every genome, every pair of in-bounds segments
and every `max_value > 0`, `decode_interacting_genes` returns
`((Σ segment1 bytes) × (Σ segment2 bytes)) mod max_value`, computed
with exact unbounded-width integer arithmetic (no fixed-width
wrap), and the successful result is always in `[0, max_value)`. -/
theorem c4_interacting_product_mod (g : Genome) (s1 l1 s2 l2 mv : Int)
    (hmv : 0 < mv)
    (ha0 : 0 ≤ s1) (ha1 : s1 < (g.data.length : Int)) (ha2 : 0 < l1)
    (ha3 : s1 + l1 ≤ (g.data.length : Int))
    (hb0 : 0 ≤ s2) (hb1 : s2 < (g.data.length : Int)) (hb2 : 0 < l2)
    (hb3 : s2 + l2 ≤ (g.data.length : Int)) :
    ∃ r, decode_interacting_genes g s1 l1 s2 l2 mv = some r ∧
      r = ((((g.data.drop s1.toNat).take l1.toNat).sum : Int) *
        (((g.data.drop s2.toNat).take l2.toNat).sum : Int)) % mv ∧
      0 ≤ r ∧ r < mv :=
  ⟨_, decode_interacting_ok g s1 l1 s2 l2 mv hmv ha0 ha1 ha2 ha3 hb0 hb1 hb2 hb3,
    rfl, Int.emod_nonneg _ (by omega), Int.emod_lt_of_pos _ hmv⟩

/-- Witness for C4: on the genome `[10,11,20,21]` with segments
`(0,2)` and `(2,2)` and `max_value = 100`, the result is
`(21 × 41) mod 100 = 61`, which lies in `[0, 100)`. -/
theorem c4_interacting_product_mod_witness :
    ∃ r, decode_interacting_genes ⟨[10,11,20,21]⟩ 0 2 2 2 100 = some r ∧
      r = 61 ∧ 0 ≤ r ∧ r < 100 := by
  obtain ⟨r, hdec, hval, hlo, hhi⟩ :=
    c4_interacting_product_mod ⟨[10,11,20,21]⟩ 0 2 2 2 100
      (by norm_num) (by norm_num) (by norm_num) (by norm_num) (by norm_num)
      (by norm_num) (by norm_num) (by norm_num) (by norm_num)
  refine ⟨r, hdec, ?_, hlo, hhi⟩
  rw [hval]
  decide

/-- Claim C5: for every genome, every pair of in-bounds segments
and every `max_value > 0`, if either segment byte sum is exactly
zero then `decode_interacting_genes` returns 0, regardless of the
other segment contents (zero is an annihilator of the combining
operation). -/
theorem c5_zero_sum_collapses (g : Genome) (s1 l1 s2 l2 mv : Int)
    (hmv : 0 < mv)
    (ha0 : 0 ≤ s1) (ha1 : s1 < (g.data.length : Int)) (ha2 : 0 < l1)
    (ha3 : s1 + l1 ≤ (g.data.length : Int))
    (hb0 : 0 ≤ s2) (hb1 : s2 < (g.data.length : Int)) (hb2 : 0 < l2)
    (hb3 : s2 + l2 ≤ (g.data.length : Int))
    (hz : ((g.data.drop s1.toNat).take l1.toNat).sum = 0 ∨
      ((g.data.drop s2.toNat).take l2.toNat).sum = 0) :
    decode_interacting_genes g s1 l1 s2 l2 mv = some 0 := by
  rw [decode_interacting_ok g s1 l1 s2 l2 mv hmv ha0 ha1 ha2 ha3
    hb0 hb1 hb2 hb3]
  rcases hz with hz | hz <;> rw [hz] <;> simp

/-- Witness for C5: on the genome `[0,0,9,9]`, the first segment
`(0,2)` sums to zero, so the result is 0 even though the second
segment `(2,2)` sums to 18. -/
theorem c5_zero_sum_collapses_witness :
    decode_interacting_genes ⟨[0,0,9,9]⟩ 0 2 2 2 100 = some 0 :=
  c5_zero_sum_collapses ⟨[0,0,9,9]⟩ 0 2 2 2 100
    (by norm_num) (by norm_num) (by norm_num) (by norm_num) (by norm_num)
    (by norm_num) (by norm_num) (by norm_num) (by norm_num) (Or.inl (by decide))

/-- Claim C6: for every Genome, `mutate_byte index (some value)`
with `value` in [0,255] and `index` in [0, length) results in
`data[index] == value` afterward and leaves every other byte and
the length unchanged; whenever `value` is outside [0,255] or
`index` is out of [0, length), the call fails (with
`InvalidArgument` or `OutOfRange`) and, the mutation being staged
only after both checks, no modified buffer is produced. -/
theorem c6_mutate_byte_spec (g : Genome) (index v : Int) (r : Nat) :
    ((0 ≤ v ∧ v ≤ 255 ∧ 0 ≤ index ∧ index < (g.data.length : Int)) →
      ∃ g2, g.mutate_byte index (some v) r = Except.ok g2 ∧
        g2.data.length = g.data.length ∧
        g2.data[index.toNat]? = some v.toNat ∧
        ∀ j, j ≠ index.toNat → g2.data[j]? = g.data[j]?) ∧
    ((v < 0 ∨ 255 < v ∨ index < 0 ∨ (g.data.length : Int) ≤ index) →
      ∃ e, g.mutate_byte index (some v) r = Except.error e) := by
  constructor
  · rintro ⟨hv0, hv1, hi0, hi1⟩
    refine ⟨⟨g.data.set index.toNat v.toNat⟩, ?_, ?_, ?_, ?_⟩
    · simp [Genome.mutate_byte, hv0, hv1, hi0, hi1]
    · simp
    · exact List.getElem?_set_self (by omega)
    · intro j hj
      exact List.getElem?_set_ne (Ne.symm hj)
  · intro h
    by_cases hidx : 0 ≤ index ∧ index < (g.data.length : Int)
    · have hv : ¬ (0 ≤ v ∧ v ≤ 255) := by omega
      exact ⟨GenomeError.InvalidArgument,
        by simp [Genome.mutate_byte, hidx.1, hidx.2, hv]⟩
    · refine ⟨GenomeError.OutOfRange, ?_⟩
      unfold Genome.mutate_byte
      rw [if_pos hidx]

/-- Witness for C6: on the 3-byte genome `[5,6,7]`, writing 42 at
index 1 yields data `[5,42,7]` facts (length 3, byte 42 at index 1,
byte 5 untouched at index 0), and writing 300 at index 1 fails. -/
theorem c6_mutate_byte_spec_witness :
    (∃ g2, (Genome.mk [5,6,7]).mutate_byte 1 (some 42) 0 = Except.ok g2 ∧
      g2.data.length = 3 ∧ g2.data[1]? = some 42 ∧ g2.data[0]? = some 5) ∧
    (∃ e, (Genome.mk [5,6,7]).mutate_byte 1 (some 300) 0 = Except.error e) := by
  constructor
  · obtain ⟨g2, hok, hlen, hat, hother⟩ :=
      (c6_mutate_byte_spec ⟨[5,6,7]⟩ 1 42 0).1 (by norm_num)
    refine ⟨g2, hok, by simpa using hlen, by simpa using hat, ?_⟩
    have h0 := hother 0 (by norm_num)
    simpa using h0
  · exact (c6_mutate_byte_spec ⟨[5,6,7]⟩ 1 300 0).2 (by norm_num)

/-- Claim C7: for every caller-supplied Genome shorter than the
minimum required length 8, Organism construction fails with
`InvalidArgument` — no clamping is performed and no partial
Organism is produced; for every supplied Genome of length ≥ 8,
that exact genome instance is used verbatim. -/
theorem c7_supplied_genome (gi : Genome) :
    MIN_GENOME_SIZE = 8 ∧
    ((gi.data.length : Int) < 8 →
      Organism.init_with_instance gi =
        Except.error GenomeError.InvalidArgument) ∧
    (8 ≤ (gi.data.length : Int) →
      ∃ org, Organism.init_with_instance gi = Except.ok org ∧
        org.genome = gi) := by
  refine ⟨rfl, ?_, ?_⟩
  · intro h
    unfold Organism.init_with_instance
    rw [if_pos (by rw [show MIN_GENOME_SIZE = 8 from rfl]; exact h)]
  · intro h
    unfold Organism.init_with_instance
    rw [if_neg (by rw [show MIN_GENOME_SIZE = 8 from rfl]; omega)]
    exact ⟨_, rfl, rfl⟩

/-- Witness for C7: a 3-byte genome is rejected with
`InvalidArgument` (end-to-end scenario 2) and an 8-byte genome is
accepted with the same instance owned verbatim. -/
theorem c7_supplied_genome_witness :
    Organism.init_with_instance ⟨[0,1,2]⟩ =
      Except.error GenomeError.InvalidArgument ∧
    ∃ org, Organism.init_with_instance ⟨[0,1,2,3,4,5,6,7]⟩ = Except.ok org ∧
      org.genome = ⟨[0,1,2,3,4,5,6,7]⟩ := by
  constructor
  · exact (c7_supplied_genome ⟨[0,1,2]⟩).2.1 (by norm_num)
  · exact (c7_supplied_genome ⟨[0,1,2,3,4,5,6,7]⟩).2.2 (by norm_num)

/-- Claim C8: for every requested genome size, constructing an
Organism without a supplied Genome never fails on size: the owned
fresh Genome length equals `max genome_size 8` — a request below
the minimum required length 8 is silently raised to 8 rather than
rejected. Stated for every byte source `urandom` that, like
`os.urandom`, returns exactly as many bytes as requested. -/
theorem c8_fresh_genome_size (urandom : Nat → List Nat)
    (hur : ∀ n, (urandom n).length = n) (genome_size : Int) :
    ∃ org, Organism.init_fresh urandom genome_size = Except.ok org ∧
      (org.genome.data.length : Int) = max genome_size 8 := by
  simp only [Organism.init_fresh, Genome.construct_random]
  have hmin : MIN_GENOME_SIZE = 8 := rfl
  by_cases h : genome_size < MIN_GENOME_SIZE
  · rw [if_pos h, if_neg (by rw [hmin]; omega)]
    refine ⟨_, rfl, ?_⟩
    rw [hur]
    rw [hmin] at h ⊢
    omega
  · rw [if_neg h, if_neg (by rw [hmin] at h; omega)]
    refine ⟨_, rfl, ?_⟩
    rw [hur]
    rw [hmin] at h
    omega

/-- Witness for C8: with the all-zeros byte source, requesting
size 3 yields an organism whose genome has length `max 3 8 = 8`. -/
theorem c8_fresh_genome_size_witness :
    ∃ org, Organism.init_fresh (fun n => List.replicate n 0) 3 =
      Except.ok org ∧ (org.genome.data.length : Int) = 8 := by
  obtain ⟨org, hok, hlen⟩ :=
    c8_fresh_genome_size (fun n => List.replicate n 0)
      (fun n => List.length_replicate n 0) 3
  exact ⟨org, hok, by simpa using hlen⟩

/-- Claim C9: the Organism constructed on the supplied genome
bytes `[0,1,2,3,10,11,20,21]` has trait map exactly color = pink
and size = 61: the color segment `(0,4)` sums to 6 and
`6 mod 10` selects the seventh label pink of the fixed 10-entry
option list; the size segments sum to 21 and 41, `21 × 41 = 861`,
`861 mod 100 = 61`. -/
theorem c9_scenario1 :
    ∃ org,
      Organism.init_with_instance ⟨[0,1,2,3,10,11,20,21]⟩ = Except.ok org ∧
      org.attributes = ⟨some "pink", some 61⟩ ∧
      COLOR_OPTIONS[6]? = some "pink" := by
  refine ⟨⟨⟨[0,1,2,3,10,11,20,21]⟩,
    decode_attributes ⟨[0,1,2,3,10,11,20,21]⟩⟩, rfl, ?_, rfl⟩
  decide

/-- Claim C10: implicit error precedence in `mutate_byte`: when
the index is outside [0, length) and the explicit value is outside
[0,255] simultaneously, the call fails with `OutOfRange` (the
index bound is checked before the value bound), not with
`InvalidArgument`, and no modified buffer is produced. -/
theorem c10_mutate_precedence (g : Genome) (index v : Int) (r : Nat)
    (hidx : index < 0 ∨ (g.data.length : Int) ≤ index)
    (hv : v < 0 ∨ 255 < v) :
    g.mutate_byte index (some v) r = Except.error GenomeError.OutOfRange := by
  unfold Genome.mutate_byte
  rw [if_pos (by omega)]

/-- Witness for C10: on the 1-byte genome `[1]`, index 5 with
value 300 fails with `OutOfRange`, not `InvalidArgument`. -/
theorem c10_mutate_precedence_witness :
    (Genome.mk [1]).mutate_byte 5 (some 300) 0 =
      Except.error GenomeError.OutOfRange :=
  c10_mutate_precedence ⟨[1]⟩ 5 300 0 (by norm_num) (by norm_num)

end Engenca
